import Mathlib

/-!
Verification of the flow-v1 backend core: the filter/sort query builder and
the partial-update resolver of the todo handlers
(src/backend/internal/handlers/todo.go, src/backend/internal/handlers/subtask.go),
over the data model of src/unnamed/part_000 and
src/backend/internal/models/subtask.go.

Modelling conventions:
* Database rows are records; the stores are lists of rows.  Nullable SQL
  columns (description, due_date, story_points) are Option-valued.
* Go strings bound from JSON are plain strings: a JSON-absent string field
  and an explicitly empty one both bind to "".  Pointer-typed Go fields
  (DueDate, StoryPoints) are Option-valued: absent binds to none.
* SQL COALESCE over a bound parameter is coalesce / coalesceNullable below;
  a parameter bound from a non-pointer Go string is always non-NULL.
* The HTTP layer (routing, JSON binding tags, id parsing) is the excluded
  collaborator per spec section 1 and is not modelled; handlers receive the
  already-bound request record and the parsed id.
* NOW() is passed in as an explicit timestamp argument; timestamps and ids
  are Int.
-/

/-- A row of the todos table (migrations 001-005: title NOT NULL, description
nullable, status NOT NULL, due_date nullable, priority NOT NULL, story_points
nullable). -/
structure TodoRow where
  id : Int
  title : String
  description : Option String
  status : String
  dueDate : Option Int
  priority : String
  storyPoints : Option Int
  createdAt : Int
  updatedAt : Int
deriving DecidableEq

/-- Request body for creating a todo: models.CreateTodoRequest
(src/unnamed/part_000), extended with the StoryPoints pointer field that
CreateTodo in todo.go reads (the models file carrying it is not under src;
its shape follows the handler and the generated API types). String fields
bind to "" when absent; DueDate and StoryPoints bind to none when absent. -/
structure CreateTodoRequest where
  title : String
  description : String
  status : String
  dueDate : Option Int
  priority : String
  storyPoints : Option Int
deriving DecidableEq

/-- Request body for updating a todo: models.UpdateTodoRequest
(src/unnamed/part_000 lines 28-35), extended with the StoryPoints pointer
field that UpdateTodo in todo.go reads.  All string fields are non-pointer
Go strings: JSON-absent and explicitly empty both bind to "". -/
structure UpdateTodoRequest where
  title : String
  description : String
  status : String
  dueDate : Option Int
  priority : String
  storyPoints : Option Int
deriving DecidableEq

/-- Outcome of a todo mutation: 400 with a message, 404, or the RETURNING
row. -/
inductive TodoResult where
  | validationError (msg : String)
  | notFound
  | ok (todo : TodoRow)
deriving DecidableEq

/-- The story-points allow-list of todo.go (validStoryPoints map): membership
in the fixed set 1, 2, 3, 5, 8. -/
def validStoryPoints (n : Int) : Bool :=
  n == 1 || n == 2 || n == 3 || n == 5 || n == 8

/-- The error message of the story-points check in todo.go. -/
def spErrMsg : String :=
  "Invalid story points value. Must be one of: 1, 2, 3, 5, 8"

/-- The guard req.StoryPoints != nil && !validStoryPoints[*req.StoryPoints]
shared by CreateTodo and UpdateTodo in todo.go. -/
def storyPointsInvalid (sp : Option Int) : Bool :=
  match sp with
  | some n => !validStoryPoints n
  | none => false

/-- SQL COALESCE(param, col) for a NOT NULL column: the bound parameter when
it is non-NULL, else the current column value. -/
def coalesce {α : Type} (param : Option α) (old : α) : α :=
  param.getD old

/-- SQL COALESCE(param, col) for a nullable column: the bound parameter when
it is non-NULL, else the current (possibly NULL) column value. -/
def coalesceNullable {α : Type} (param : Option α) (old : Option α) : Option α :=
  match param with
  | some v => some v
  | none => old

/-- CreateTodo (todo.go): empty description becomes NULL, empty priority
defaults to Medium, empty status defaults to todo, then the story-points
check, then the INSERT.  Returns the outcome and the store after the call;
nextId stands for the id the storage assigns. -/
def createTodo (store : List TodoRow) (nextId now : Int)
    (req : CreateTodoRequest) : TodoResult × List TodoRow :=
  let description : Option String :=
    if req.description == "" then none else some req.description
  let priority := if req.priority == "" then "Medium" else req.priority
  let status := if req.status == "" then "todo" else req.status
  if storyPointsInvalid req.storyPoints then
    (.validationError spErrMsg, store)
  else
    let row : TodoRow :=
      { id := nextId, title := req.title, description := description,
        status := status, dueDate := req.dueDate, priority := priority,
        storyPoints := req.storyPoints, createdAt := now, updatedAt := now }
    (.ok row, store ++ [row])

/-- The SET clause of the UPDATE in UpdateTodo (todo.go): empty description
and empty status are converted to NULL parameters by the handler; title and
priority are non-pointer Go strings, so their bound parameters are never
NULL (some req.title, some req.priority); each column is
COALESCE(param, column) and updated_at is refreshed. -/
def updateSet (req : UpdateTodoRequest) (now : Int) (r : TodoRow) : TodoRow :=
  let description : Option String :=
    if req.description == "" then none else some req.description
  let status : Option String :=
    if req.status == "" then none else some req.status
  let titleParam : Option String := some req.title
  let priorityParam : Option String := some req.priority
  { r with
    title := coalesce titleParam r.title,
    description := coalesceNullable description r.description,
    status := coalesce status r.status,
    dueDate := coalesceNullable req.dueDate r.dueDate,
    priority := coalesce priorityParam r.priority,
    storyPoints := coalesceNullable req.storyPoints r.storyPoints,
    updatedAt := now }

/-- UpdateTodo (todo.go): the story-points check runs before the UPDATE; the
UPDATE applies the SET clause to the rows matching WHERE id and returns the
updated row - zero matched rows is ErrNoRows, surfaced as NotFound.  Returns
the outcome and the store after the call. -/
def updateTodo (store : List TodoRow) (id now : Int)
    (req : UpdateTodoRequest) : TodoResult × List TodoRow :=
  if storyPointsInvalid req.storyPoints then
    (.validationError spErrMsg, store)
  else
    match store.find? (fun r => r.id == id) with
    | none => (.notFound, store)
    | some old =>
        (.ok (updateSet req now old),
         store.map (fun r => if r.id == id then updateSet req now r else r))

/-- When the story-points check fails, UpdateTodo returns 400 and the store
is untouched. -/
theorem updateTodo_eq_spInvalid {store : List TodoRow} {id now : Int}
    {req : UpdateTodoRequest} (h : storyPointsInvalid req.storyPoints = true) :
    updateTodo store id now req = (.validationError spErrMsg, store) := by
  simp [updateTodo, h]

/-- When the story-points check passes and no row matches the id, UpdateTodo
returns 404 and the store is untouched. -/
theorem updateTodo_eq_notFound {store : List TodoRow} {id now : Int}
    {req : UpdateTodoRequest} (hsp : storyPointsInvalid req.storyPoints = false)
    (hfind : store.find? (fun r => r.id == id) = none) :
    updateTodo store id now req = (.notFound, store) := by
  simp [updateTodo, hsp, hfind]

/-- When the story-points check passes and a row matches the id, UpdateTodo
returns the updated row and rewrites the matching rows in the store. -/
theorem updateTodo_eq_ok {store : List TodoRow} {id now : Int}
    {req : UpdateTodoRequest} {old : TodoRow}
    (hsp : storyPointsInvalid req.storyPoints = false)
    (hfind : store.find? (fun r => r.id == id) = some old) :
    updateTodo store id now req =
      (.ok (updateSet req now old),
       store.map (fun r => if r.id == id then updateSet req now r else r)) := by
  simp [updateTodo, hsp, hfind]

/-- C1 counterexample: on a stored task titled "Buy milk", an update whose
title is the empty string does not leave the title unchanged - the stored
title becomes "" (the title parameter is a non-pointer Go string, so the
COALESCE fallback never fires). -/
theorem claim_C1_counterexample :
    ((updateTodo [⟨1, "Buy milk", some "d", "todo", none, "Medium", none, 0, 0⟩]
        1 5 ⟨"", "", "", none, "Medium", none⟩).2.map (fun r => r.title)) = [""] ∧
    ¬ ((updateTodo [⟨1, "Buy milk", some "d", "todo", none, "Medium", none, 0, 0⟩]
        1 5 ⟨"", "", "", none, "Medium", none⟩).2.map (fun r => r.title))
      = ["Buy milk"] := by
  constructor
  · rfl
  · decide

/-- C1 amended: the Update Task operation always writes the payload title
verbatim into the matched row - an empty (or absent, which binds equally
to "") title overwrites the stored title with the empty string, because the
title parameter is a non-nullable Go string and COALESCE never falls back. -/
theorem claim_C1_title_always_overwritten
    (store : List TodoRow) (id now : Int) (req : UpdateTodoRequest)
    (t : TodoRow) (h : (updateTodo store id now req).1 = .ok t) :
    t.title = req.title := by
  by_cases hsp : storyPointsInvalid req.storyPoints = true
  · rw [updateTodo_eq_spInvalid hsp] at h
    exact absurd h (by simp)
  · rw [Bool.not_eq_true] at hsp
    rcases hfind : store.find? (fun r => r.id == id) with _ | old
    · rw [updateTodo_eq_notFound hsp hfind] at h
      exact absurd h (by simp)
    · rw [updateTodo_eq_ok hsp hfind] at h
      simp only [TodoResult.ok.injEq] at h
      rw [← h]
      rfl

/-- C1 witness: the amended theorem applied to the concrete "Buy milk" row
and an update payload with an empty title. -/
theorem claim_C1_title_always_overwritten_witness :
    (⟨1, "", some "d", "todo", none, "Medium", none, 0, 5⟩ : TodoRow).title
      = (⟨"", "", "", none, "Medium", none⟩ : UpdateTodoRequest).title :=
  claim_C1_title_always_overwritten
    [⟨1, "Buy milk", some "d", "todo", none, "Medium", none, 0, 0⟩] 1 5
    ⟨"", "", "", none, "Medium", none⟩
    ⟨1, "", some "d", "todo", none, "Medium", none, 0, 5⟩ (by decide)

/-- C2 counterexample: on a stored task with description "Milk, eggs, bread",
an update with a present-but-empty description does not clear it - the
handler converts "" to a NULL parameter and COALESCE(NULL, description)
keeps the current value, so the stored description is unchanged and in
particular not null. -/
theorem claim_C2_counterexample :
    ((updateTodo [⟨1, "t", some "Milk, eggs, bread", "todo", none, "Medium", none, 0, 0⟩]
        1 5 ⟨"x", "", "", none, "Medium", none⟩).2.map (fun r => r.description))
      = [some "Milk, eggs, bread"] ∧
    ¬ ((updateTodo [⟨1, "t", some "Milk, eggs, bread", "todo", none, "Medium", none, 0, 0⟩]
        1 5 ⟨"x", "", "", none, "Medium", none⟩).2.map (fun r => r.description))
      = [none] := by
  constructor
  · rfl
  · decide

/-- C2 amended: an update whose description field is empty (which is also how
an absent field binds) leaves every stored description unchanged - the empty
string is converted to a NULL parameter and COALESCE(NULL, description)
keeps the current value, so no update payload can clear a description. -/
theorem claim_C2_empty_description_keeps_current
    (store : List TodoRow) (id now : Int) (req : UpdateTodoRequest)
    (hd : req.description = "") :
    ((updateTodo store id now req).2.map (fun r => r.description))
      = store.map (fun r => r.description) := by
  by_cases hsp : storyPointsInvalid req.storyPoints = true
  · rw [updateTodo_eq_spInvalid hsp]
  · rw [Bool.not_eq_true] at hsp
    rcases hfind : store.find? (fun r => r.id == id) with _ | old
    · rw [updateTodo_eq_notFound hsp hfind]
    · rw [updateTodo_eq_ok hsp hfind]
      simp only
      rw [List.map_map]
      apply List.map_congr_left
      intro r _
      by_cases hid : (r.id == id) = true
      · simp [Function.comp, hid, updateSet, hd, coalesceNullable]
      · simp [Function.comp, hid]

/-- C2 witness: the amended theorem applied to the concrete row whose
description is "Milk, eggs, bread" and an update payload with an empty
description. -/
theorem claim_C2_empty_description_keeps_current_witness :
    ((updateTodo [⟨1, "t", some "Milk, eggs, bread", "todo", none, "Medium", none, 0, 0⟩]
        1 5 ⟨"x", "", "", none, "Medium", none⟩).2.map (fun r => r.description))
      = ([⟨1, "t", some "Milk, eggs, bread", "todo", none, "Medium", none, 0, 0⟩]
          : List TodoRow).map (fun r => r.description) :=
  claim_C2_empty_description_keeps_current
    [⟨1, "t", some "Milk, eggs, bread", "todo", none, "Medium", none, 0, 0⟩] 1 5
    ⟨"x", "", "", none, "Medium", none⟩ rfl

/-- C4 counterexample: an update call on a non-existent id whose payload
carries story_points = 4 is answered with the ValidationError, not with
NotFound - the story-points check runs before the row lookup (the store is
still untouched). -/
theorem claim_C4_counterexample :
    updateTodo ([] : List TodoRow) 1 0 ⟨"x", "", "", none, "Medium", some 4⟩
      = (.validationError spErrMsg, []) ∧
    (TodoResult.validationError spErrMsg) ≠ TodoResult.notFound := by
  constructor
  · rfl
  · decide

/-- C4 amended: an update call whose target id does not exist and whose
payload passes the story-points check returns NotFound and performs zero
storage writes; a payload failing the check returns ValidationError instead,
also with zero writes. -/
theorem claim_C4_missing_id_notFound
    (store : List TodoRow) (id now : Int) (req : UpdateTodoRequest)
    (hsp : ∀ n, req.storyPoints = some n → validStoryPoints n = true)
    (hfind : store.find? (fun r => r.id == id) = none) :
    updateTodo store id now req = (.notFound, store) := by
  have hsp2 : storyPointsInvalid req.storyPoints = false := by
    cases hx : req.storyPoints with
    | none => rfl
    | some n => simp [storyPointsInvalid, hsp n hx]
  exact updateTodo_eq_notFound hsp2 hfind

/-- C4 witness: the amended theorem applied to the empty store and a blank
update payload. -/
theorem claim_C4_missing_id_notFound_witness :
    updateTodo ([] : List TodoRow) 7 0 ⟨"", "", "", none, "", none⟩
      = (.notFound, []) :=
  claim_C4_missing_id_notFound [] 7 0 ⟨"", "", "", none, "", none⟩
    (fun _ h => Option.noConfusion h) rfl

/-- C3: a create or update payload whose story_points value fails the
allow-list check is rejected with the ValidationError before anything is
sent to storage (the store is returned untouched); 5 passes the check and a
create with story_points = 5 succeeds, while 4 fails it. -/
theorem claim_C3_storyPoints_validation
    (store : List TodoRow) (nextId id now : Int)
    (creq : CreateTodoRequest) (ureq : UpdateTodoRequest) (m n : Int)
    (hc : creq.storyPoints = some m) (hm : validStoryPoints m = false)
    (hu : ureq.storyPoints = some n) (hn : validStoryPoints n = false) :
    createTodo store nextId now creq = (.validationError spErrMsg, store) ∧
    updateTodo store id now ureq = (.validationError spErrMsg, store) ∧
    validStoryPoints 5 = true ∧
    validStoryPoints 4 = false ∧
    (createTodo [] 1 0 ⟨"Buy groceries", "", "", none, "", some 5⟩).1
      = .ok ⟨1, "Buy groceries", none, "todo", none, "Medium", some 5, 0, 0⟩ := by
  refine ⟨?_, ?_, by decide, by decide, rfl⟩
  · simp [createTodo, storyPointsInvalid, hc, hm]
  · exact updateTodo_eq_spInvalid (by simp [storyPointsInvalid, hu, hn])

/-- C3 witness: the theorem applied to concrete create and update payloads
carrying story_points = 4 on the empty store. -/
theorem claim_C3_storyPoints_validation_witness :
    createTodo ([] : List TodoRow) 1 0 ⟨"Buy groceries", "", "", none, "", some 4⟩
      = (.validationError spErrMsg, []) ∧
    updateTodo ([] : List TodoRow) 1 0 ⟨"x", "", "", none, "", some 4⟩
      = (.validationError spErrMsg, []) ∧
    validStoryPoints 5 = true ∧
    validStoryPoints 4 = false ∧
    (createTodo [] 1 0 ⟨"Buy groceries", "", "", none, "", some 5⟩).1
      = .ok ⟨1, "Buy groceries", none, "todo", none, "Medium", some 5, 0, 0⟩ :=
  claim_C3_storyPoints_validation [] 1 1 0
    ⟨"Buy groceries", "", "", none, "", some 4⟩ ⟨"x", "", "", none, "", some 4⟩
    4 4 rfl (by decide) rfl (by decide)

/-- C10: whatever the update payload, every row of the store after an Update
Task call still has a present due_date wherever it had one, and a present
story_points wherever it had one - the pointer-typed parameters merge with
COALESCE, which keeps the current value when the field is absent and offers
no way to write NULL over a present value. -/
theorem claim_C10_due_date_story_points_never_cleared
    (store : List TodoRow) (id now : Int) (req : UpdateTodoRequest) :
    List.Forall₂
      (fun r rp => (r.dueDate.isSome = true → rp.dueDate.isSome = true) ∧
                   (r.storyPoints.isSome = true → rp.storyPoints.isSome = true))
      store (updateTodo store id now req).2 := by
  have hpres : ∀ x : TodoRow,
      (x.dueDate.isSome = true → (updateSet req now x).dueDate.isSome = true) ∧
      (x.storyPoints.isSome = true → (updateSet req now x).storyPoints.isSome = true) := by
    intro x
    constructor
    · intro hx
      cases hd : req.dueDate <;> simp [updateSet, coalesceNullable, hd, hx]
    · intro hx
      cases hs : req.storyPoints <;> simp [updateSet, coalesceNullable, hs, hx]
  by_cases hsp : storyPointsInvalid req.storyPoints = true
  · rw [updateTodo_eq_spInvalid hsp]
    exact List.forall₂_same.mpr (fun x _ => ⟨fun h => h, fun h => h⟩)
  · rw [Bool.not_eq_true] at hsp
    rcases hfind : store.find? (fun r => r.id == id) with _ | old
    · rw [updateTodo_eq_notFound hsp hfind]
      exact List.forall₂_same.mpr (fun x _ => ⟨fun h => h, fun h => h⟩)
    · rw [updateTodo_eq_ok hsp hfind]
      refine List.forall₂_map_right_iff.mpr (List.forall₂_same.mpr ?_)
      intro x _
      by_cases hid : (x.id == id) = true
      · simpa [hid] using hpres x
      · simp [hid]

/-- Value of a digit string, most significant first. -/
def digitsVal (cs : List Char) : Nat :=
  cs.foldl (fun n c => n * 10 + (c.toNat - 48)) 0

/-- Go strconv.Atoi: an optional single leading sign followed by at least one
decimal digit; anything else is an error (none).  The int-range overflow
error of Atoi is not modelled - the claims only involve small values. -/
def goAtoi (s : String) : Option Int :=
  match s.toList with
  | [] => none
  | c :: rest =>
    let signNeg : Bool := c == '-'
    let digits : List Char := if c == '-' || c == '+' then rest else c :: rest
    if digits.isEmpty then none
    else if digits.all (fun d => d.isDigit) then
      if signNeg then some (-(digitsVal digits : Int)) else some ((digitsVal digits : Int))
    else none

/-- The validSortFields allow-list of GetTodos (todo.go). -/
def validSortField (s : String) : Bool :=
  s == "due_date" || s == "priority" || s == "created_at"

/-- GetTodos: an unrecognized sort_by falls back to created_at. -/
def validateSortBy (s : String) : String :=
  if validSortField s then s else "created_at"

/-- GetTodos: an order other than asc or desc falls back to desc. -/
def validateOrder (s : String) : String :=
  if s == "asc" || s == "desc" then s else "desc"

/-- The validStatuses allow-list of GetTodos (todo.go). -/
def validStatusValue (s : String) : Bool :=
  s == "todo" || s == "in_progress" || s == "done"

/-- GetTodos: a non-empty status outside the allow-list is reset to "" (no
filter); empty stays empty. -/
def validateStatusFilter (s : String) : String :=
  if s != "" && !validStatusValue s then "" else s

/-- The ORDER BY clause emitted by GetTodos (todo.go switch on sortBy). -/
def orderByClause (sortBy order : String) : String :=
  if sortBy == "due_date" then
    if order == "asc" then "ORDER BY due_date ASC NULLS LAST"
    else "ORDER BY due_date DESC NULLS LAST"
  else if sortBy == "priority" then
    if order == "asc" then
      "ORDER BY CASE priority WHEN 'High' THEN 1 WHEN 'Medium' THEN 2 WHEN 'Low' THEN 3 END ASC"
    else
      "ORDER BY CASE priority WHEN 'High' THEN 1 WHEN 'Medium' THEN 2 WHEN 'Low' THEN 3 END DESC"
  else "ORDER BY created_at " ++ order

/-- A bound query argument of the parameterized WHERE clause: pgx receives a
string (status) or an int (story-points bound). -/
inductive QueryArg where
  | s (v : String)
  | i (v : Int)
deriving DecidableEq

/-- The WHERE-clause builder of GetTodos (todo.go): append the status
predicate, then the story-points minimum, then the story-points maximum,
numbering placeholders with a running argIndex starting at 1; a bound that
Atoi rejects or that is negative is skipped.  Returns the predicate strings
and the bound arguments. -/
def buildWhere (statusFilter spMinStr spMaxStr : String) :
    List String × List QueryArg :=
  let conds0 : List String := []
  let args0 : List QueryArg := []
  let i0 : Nat := 1
  let (conds1, args1, i1) :=
    if statusFilter != "" then
      (conds0 ++ ["status = $" ++ toString i0], args0 ++ [QueryArg.s statusFilter], i0 + 1)
    else (conds0, args0, i0)
  let (conds2, args2, i2) :=
    if spMinStr != "" then
      match goAtoi spMinStr with
      | some v =>
          if v ≥ 0 then
            (conds1 ++ ["story_points >= $" ++ toString i1], args1 ++ [QueryArg.i v], i1 + 1)
          else (conds1, args1, i1)
      | none => (conds1, args1, i1)
    else (conds1, args1, i1)
  let (conds3, args3, _) :=
    if spMaxStr != "" then
      match goAtoi spMaxStr with
      | some v =>
          if v ≥ 0 then
            (conds2 ++ ["story_points <= $" ++ toString i2], args2 ++ [QueryArg.i v], i2 + 1)
          else (conds2, args2, i2)
      | none => (conds2, args2, i2)
    else (conds2, args2, i2)
  (conds3, args3)

/-- The WHERE clause string of GetTodos: empty when there are no predicates,
else WHERE with the predicates joined by AND. -/
def whereClauseOf (conds : List String) : String :=
  match conds with
  | [] => ""
  | c :: rest => rest.foldl (fun acc x => acc ++ " AND " ++ x) ("WHERE " ++ c)

/-- A story-points bound is kept exactly when Atoi parses it to a
non-negative value (the emptiness short-circuit of the source is subsumed:
Atoi rejects the empty string). -/
def keptBound (s : String) : Option Int :=
  match goAtoi s with
  | some v => if v ≥ 0 then some v else none
  | none => none

/-- The full query skeleton GetTodos sends to storage: validated sort and
filter inputs, the WHERE clause, the ORDER BY clause and the bound
arguments. -/
structure TodosQuery where
  whereClause : String
  orderBy : String
  args : List QueryArg
deriving DecidableEq

/-- GetTodos (todo.go): validate sort_by, order and status, then build the
WHERE clause and the ORDER BY clause. -/
def getTodosQuery (sortBy order statusFilter spMinStr spMaxStr : String) :
    TodosQuery :=
  let sortBy2 := validateSortBy sortBy
  let order2 := validateOrder order
  let status2 := validateStatusFilter statusFilter
  let (conds, args) := buildWhere status2 spMinStr spMaxStr
  { whereClause := whereClauseOf conds,
    orderBy := orderByClause sortBy2 order2,
    args := args }

/-- Atoi rejects the empty string. -/
theorem goAtoi_empty : goAtoi "" = none := rfl

/-- Closed form of the WHERE-clause builder: the status predicate (when the
filter is non-empty) always numbered $1, then the story-points minimum, then
the maximum, each kept exactly when its bound parses non-negative, with
consecutive placeholder numbers, and the bound arguments in the same
order. -/
theorem buildWhere_eq (st m x : String) :
    buildWhere st m x =
      ((if st == "" then [] else ["status = $1"])
        ++ (match keptBound m with
            | some _ => ["story_points >= $" ++ toString (if st == "" then 1 else 2)]
            | none => [])
        ++ (match keptBound x with
            | some _ => ["story_points <= $" ++
                toString ((if st == "" then (1 : Nat) else 2) +
                  (if (keptBound m).isSome then 1 else 0))]
            | none => []),
       (if st == "" then [] else [QueryArg.s st])
        ++ (match keptBound m with | some v => [QueryArg.i v] | none => [])
        ++ (match keptBound x with | some v => [QueryArg.i v] | none => [])) := by
  by_cases hst : st = "" <;> by_cases hme : m = "" <;> by_cases hxe : x = "" <;>
    rcases hm : goAtoi m with _ | vm <;> rcases hx : goAtoi x with _ | vx <;>
      simp_all [buildWhere, keptBound, bne_iff_ne, goAtoi_empty] <;>
      (try split_ifs) <;> (try simp_all) <;> (try decide)

/-- C6: the builder emits the predicate clauses in the fixed order status,
story-points-min, story-points-max, ANDed with consecutive placeholder
numbers starting at $1 and with the bound arguments in the same order; zero
predicates yield an empty WHERE clause (not an always-true one); and a
minimum above the maximum (here 5 over 2) still emits both predicates as
given, with no swap. -/
theorem claim_C6_predicate_order (st m x : String) :
    buildWhere st m x =
      ((if st == "" then [] else ["status = $1"])
        ++ (match keptBound m with
            | some _ => ["story_points >= $" ++ toString (if st == "" then 1 else 2)]
            | none => [])
        ++ (match keptBound x with
            | some _ => ["story_points <= $" ++
                toString ((if st == "" then (1 : Nat) else 2) +
                  (if (keptBound m).isSome then 1 else 0))]
            | none => []),
       (if st == "" then [] else [QueryArg.s st])
        ++ (match keptBound m with | some v => [QueryArg.i v] | none => [])
        ++ (match keptBound x with | some v => [QueryArg.i v] | none => [])) ∧
    buildWhere "" "" "" = ([], []) ∧
    whereClauseOf (buildWhere "" "" "").1 = "" ∧
    buildWhere "" "5" "2" = (["story_points >= $1", "story_points <= $2"],
      [QueryArg.i 5, QueryArg.i 2]) ∧
    whereClauseOf (buildWhere "" "5" "2").1
      = "WHERE story_points >= $1 AND story_points <= $2" := by
  exact ⟨buildWhere_eq st m x, by decide, by decide, by decide, by decide⟩

/-- C7: the query builder never errors and degrades malformed filters to
defaults - an unrecognized sort_by falls back to created_at, an unrecognized
order to desc, an unrecognized status to no filter, and a story-points bound
that does not parse to a non-negative integer is dropped (the WHERE clause
is as if the bound were absent), in min and in max position alike.  The
builder is a total function, so no input raises an error. -/
theorem claim_C7_malformed_filters_degrade
    (sb ord st bound other m2 x2 : String) :
    (validSortField sb = false → validateSortBy sb = "created_at") ∧
    ((ord == "asc" || ord == "desc") = false → validateOrder ord = "desc") ∧
    (validStatusValue st = false → validateStatusFilter st = "") ∧
    ((∀ v, goAtoi bound = some v → v < 0) →
      buildWhere other bound x2 = buildWhere other "" x2) ∧
    ((∀ v, goAtoi bound = some v → v < 0) →
      buildWhere other m2 bound = buildWhere other m2 "") := by
  have hkept : (∀ v, goAtoi bound = some v → v < 0) → keptBound bound = none := by
    intro h
    unfold keptBound
    cases hb : goAtoi bound with
    | none => rfl
    | some v => simp [not_le.mpr (h v hb)]
  refine ⟨?_, ?_, ?_, ?_, ?_⟩
  · intro h
    simp [validateSortBy, h]
  · intro h
    simp [validateOrder, h]
  · intro h
    cases hs : st == "" <;> simp_all [validateStatusFilter, bne, hs]
  · intro h
    have h0 : keptBound "" = none := rfl
    rw [buildWhere_eq, buildWhere_eq, hkept h, h0]
  · intro h
    have h0 : keptBound "" = none := rfl
    rw [buildWhere_eq, buildWhere_eq, hkept h, h0]

/-- C7 witness: the theorem applied to the malformed inputs sort_by bogus,
order up, status weird and the unparseable story-points bound abc. -/
theorem claim_C7_malformed_filters_degrade_witness :
    validateSortBy "bogus" = "created_at" ∧
    validateOrder "up" = "desc" ∧
    validateStatusFilter "weird" = "" ∧
    buildWhere "todo" "abc" "8" = buildWhere "todo" "" "8" ∧
    buildWhere "todo" "2" "abc" = buildWhere "todo" "2" "" := by
  have h := claim_C7_malformed_filters_degrade "bogus" "up" "weird" "abc" "todo" "2" "8"
  have habc : ∀ v, goAtoi "abc" = some v → v < 0 := by
    intro v hv
    rw [show goAtoi "abc" = none from rfl] at hv
    exact Option.noConfusion hv
  exact ⟨h.1 (by decide), h.2.1 (by decide), h.2.2.1 (by decide),
    h.2.2.2.1 habc, h.2.2.2.2 habc⟩

/-- The CASE priority expression of the ORDER BY clause in GetTodos
(todo.go): High maps to 1, Medium to 2, Low to 3, anything else to SQL
NULL. -/
def priorityCaseRank (p : String) : Option Int :=
  if p == "High" then some 1
  else if p == "Medium" then some 2
  else if p == "Low" then some 3
  else none

/-- Modelled from the spec: ascending ORDER BY comparison of the storage
collaborator on a nullable sort key, with its default NULLS LAST for ASC. -/
def pgAscLe (x y : Option Int) : Bool :=
  match x, y with
  | none, none => true
  | none, some _ => false
  | some _, none => true
  | some a, some b => a ≤ b

/-- Modelled from the spec: descending ORDER BY comparison of the storage
collaborator on a nullable sort key (larger keys first), with its default
NULLS FIRST for DESC. -/
def pgDescLe (x y : Option Int) : Bool :=
  match x, y with
  | none, none => true
  | none, some _ => true
  | some _, none => false
  | some a, some b => b ≤ a

/-- Row order under ORDER BY CASE priority ... ASC. -/
def prioAsc (a b : TodoRow) : Prop :=
  pgAscLe (priorityCaseRank a.priority) (priorityCaseRank b.priority) = true

/-- Row order under ORDER BY CASE priority ... DESC. -/
def prioDesc (a b : TodoRow) : Prop :=
  pgDescLe (priorityCaseRank a.priority) (priorityCaseRank b.priority) = true

/-- Row order under ORDER BY due_date ASC NULLS LAST. -/
def dueAsc (a b : TodoRow) : Prop :=
  pgAscLe a.dueDate b.dueDate = true

/-- Modelled from the spec: descending ORDER BY comparison with the explicit
NULLS LAST override that the source writes in the due_date DESC clause. -/
def pgDescNullsLastLe (x y : Option Int) : Bool :=
  match x, y with
  | none, none => true
  | none, some _ => false
  | some _, none => true
  | some a, some b => b ≤ a

/-- Row order under ORDER BY due_date DESC NULLS LAST. -/
def dueDesc (a b : TodoRow) : Prop :=
  pgDescNullsLastLe a.dueDate b.dueDate = true

/-- Row order under ORDER BY created_at ASC (created_at is never NULL). -/
def createdAsc (a b : TodoRow) : Prop :=
  a.createdAt ≤ b.createdAt

/-- Row order under ORDER BY created_at DESC. -/
def createdDesc (a b : TodoRow) : Prop :=
  b.createdAt ≤ a.createdAt

instance : DecidableRel prioAsc :=
  fun _ _ => inferInstanceAs (Decidable (_ = true))

instance : DecidableRel prioDesc :=
  fun _ _ => inferInstanceAs (Decidable (_ = true))

instance : DecidableRel dueAsc :=
  fun _ _ => inferInstanceAs (Decidable (_ = true))

instance : DecidableRel dueDesc :=
  fun _ _ => inferInstanceAs (Decidable (_ = true))

instance : DecidableRel createdAsc :=
  fun _ _ => inferInstanceAs (Decidable (_ ≤ _))

instance : DecidableRel createdDesc :=
  fun _ _ => inferInstanceAs (Decidable (_ ≤ _))

/-- Modelled from the spec: the ordered row sequence the storage collaborator
returns for the ORDER BY clause emitted by GetTodos, for the validated sort
field and order. -/
def sortTodos (sortBy order : String) (rows : List TodoRow) : List TodoRow :=
  if sortBy == "due_date" then
    if order == "asc" then List.insertionSort dueAsc rows
    else List.insertionSort dueDesc rows
  else if sortBy == "priority" then
    if order == "asc" then List.insertionSort prioAsc rows
    else List.insertionSort prioDesc rows
  else
    if order == "asc" then List.insertionSort createdAsc rows
    else List.insertionSort createdDesc rows

/-- pgAscLe is total. -/
theorem pgAscLe_total (x y : Option Int) :
    pgAscLe x y = true ∨ pgAscLe y x = true := by
  rcases x with _ | a <;> rcases y with _ | b <;> simp [pgAscLe]
  exact Int.le_total a b

/-- pgAscLe is transitive. -/
theorem pgAscLe_trans {x y z : Option Int} (h1 : pgAscLe x y = true)
    (h2 : pgAscLe y z = true) : pgAscLe x z = true := by
  rcases x with _ | a <;> rcases y with _ | b <;> rcases z with _ | c <;>
    simp_all [pgAscLe]
  exact Int.le_trans h1 h2

/-- pgDescLe is total. -/
theorem pgDescLe_total (x y : Option Int) :
    pgDescLe x y = true ∨ pgDescLe y x = true := by
  rcases x with _ | a <;> rcases y with _ | b <;> simp [pgDescLe]
  exact Int.le_total b a

/-- pgDescLe is transitive. -/
theorem pgDescLe_trans {x y z : Option Int} (h1 : pgDescLe x y = true)
    (h2 : pgDescLe y z = true) : pgDescLe x z = true := by
  rcases x with _ | a <;> rcases y with _ | b <;> rcases z with _ | c <;>
    simp_all [pgDescLe]
  exact Int.le_trans h2 h1

instance : IsTotal TodoRow prioAsc :=
  ⟨fun _ _ => pgAscLe_total _ _⟩

instance : IsTrans TodoRow prioAsc :=
  ⟨fun _ _ _ => pgAscLe_trans⟩

instance : IsTotal TodoRow prioDesc :=
  ⟨fun _ _ => pgDescLe_total _ _⟩

instance : IsTrans TodoRow prioDesc :=
  ⟨fun _ _ _ => pgDescLe_trans⟩

/-- C5: sorting by priority uses the custom rank High = 1, Medium = 2,
Low = 3 of the CASE expression, not lexicographic string order: ascending
output is sorted by non-decreasing rank (High first, Low last), descending
output by non-increasing rank (Low first, High last), both permutations of
the input; on the concrete rows High, Low, Medium the ascending order is
High, Medium, Low and the descending order is Low, Medium, High. -/
theorem claim_C5_priority_sort (rows : List TodoRow) :
    priorityCaseRank "High" = some 1 ∧
    priorityCaseRank "Medium" = some 2 ∧
    priorityCaseRank "Low" = some 3 ∧
    List.Perm (sortTodos "priority" "asc" rows) rows ∧
    List.Sorted prioAsc (sortTodos "priority" "asc" rows) ∧
    List.Perm (sortTodos "priority" "desc" rows) rows ∧
    List.Sorted prioDesc (sortTodos "priority" "desc" rows) ∧
    ((sortTodos "priority" "asc"
        [⟨1, "a", none, "todo", none, "High", none, 0, 0⟩,
         ⟨2, "b", none, "todo", none, "Low", none, 0, 0⟩,
         ⟨3, "c", none, "todo", none, "Medium", none, 0, 0⟩]).map
      (fun t => t.priority)) = ["High", "Medium", "Low"] ∧
    ((sortTodos "priority" "desc"
        [⟨1, "a", none, "todo", none, "High", none, 0, 0⟩,
         ⟨2, "b", none, "todo", none, "Low", none, 0, 0⟩,
         ⟨3, "c", none, "todo", none, "Medium", none, 0, 0⟩]).map
      (fun t => t.priority)) = ["Low", "Medium", "High"] := by
  refine ⟨rfl, rfl, rfl, ?_, ?_, ?_, ?_, by decide, by decide⟩
  · exact List.perm_insertionSort prioAsc rows
  · exact List.sorted_insertionSort prioAsc rows
  · exact List.perm_insertionSort prioDesc rows
  · exact List.sorted_insertionSort prioDesc rows

/-- A row of the subtasks table (migration 003: todo_id references todos with
cascade delete, title NOT NULL, completed NOT NULL). -/
structure SubtaskRow where
  id : Int
  todoId : Int
  title : String
  completed : Bool
  createdAt : Int
  updatedAt : Int
deriving DecidableEq

/-- models.CreateSubtaskRequest (src/backend/internal/models/subtask.go). -/
structure CreateSubtaskRequest where
  title : String
deriving DecidableEq

/-- models.UpdateSubtaskRequest (src/backend/internal/models/subtask.go):
both fields are non-pointer, so an absent title binds to "" and an absent
completed binds to false. -/
structure UpdateSubtaskRequest where
  title : String
  completed : Bool
deriving DecidableEq

/-- The state the subtask handlers touch: the todos and subtasks tables. -/
structure AppState where
  todos : List TodoRow
  subtasks : List SubtaskRow
deriving DecidableEq

/-- Outcome of a subtask mutation: a 404 carrying the error message of the
response body, or the affected row. -/
inductive SubtaskMutResult where
  | notFound (msg : String)
  | ok (s : SubtaskRow)
deriving DecidableEq

/-- A Go slice: nil (which encodes to JSON null) or a backing list.  The
todo list handler initializes its slice to the empty non-nil slice; the
subtask list handler declares a nil slice. -/
abbrev GoSlice (α : Type) := Option (List α)

/-- Go append on a slice: appending to nil allocates a fresh backing list. -/
def goAppend {α : Type} (s : GoSlice α) (a : α) : GoSlice α :=
  match s with
  | none => some [a]
  | some l => some (l ++ [a])

/-- GetTodos (todo.go lines 139-148): the response slice starts as the empty
non-nil slice - the source comment says it is initialized so the JSON
serializes to an array, never null - and each row is appended. -/
def todosResponseSlice (rows : List TodoRow) : GoSlice TodoRow :=
  rows.foldl goAppend (some [])

/-- GetSubtasks (subtask.go lines 68-78): the response slice is declared
nil (var subtasks) and each row is appended; with zero rows it stays nil and
the response body is JSON null. -/
def subtasksResponseSlice (rows : List SubtaskRow) : GoSlice SubtaskRow :=
  rows.foldl goAppend none

/-- Outcome of GetSubtasks: a 404 carrying the message of the response body,
or the 200 slice. -/
inductive SubtasksListResult where
  | notFound (msg : String)
  | ok (subtasks : GoSlice SubtaskRow)
deriving DecidableEq

/-- Row order of the subtask listing query, ORDER BY created_at ASC. -/
def subCreatedAsc (a b : SubtaskRow) : Prop :=
  a.createdAt ≤ b.createdAt

instance : DecidableRel subCreatedAsc :=
  fun _ _ => inferInstanceAs (Decidable (_ ≤ _))

/-- GetSubtasks (subtask.go): verify the parent todo exists (404 with
"Todo not found" otherwise), then select the subtasks of the todo ordered by
created_at and fold them into the nil-initialized response slice. -/
def getSubtasks (st : AppState) (todoId : Int) : SubtasksListResult :=
  let todoExists := st.todos.any (fun t => t.id == todoId)
  if !todoExists then .notFound "Todo not found"
  else
    let rows :=
      List.insertionSort subCreatedAsc
        (st.subtasks.filter (fun s => s.todoId == todoId))
    .ok (subtasksResponseSlice rows)

/-- CreateSubtask (subtask.go): verify the parent todo exists (404 with
"Todo not found" otherwise), then INSERT the subtask with completed false;
nextId stands for the id the storage assigns.  Returns the outcome and the
state after the call. -/
def createSubtask (st : AppState) (todoId nextId now : Int)
    (req : CreateSubtaskRequest) : SubtaskMutResult × AppState :=
  let todoExists := st.todos.any (fun t => t.id == todoId)
  if !todoExists then (.notFound "Todo not found", st)
  else
    let row : SubtaskRow :=
      { id := nextId, todoId := todoId, title := req.title,
        completed := false, createdAt := now, updatedAt := now }
    (.ok row, { st with subtasks := st.subtasks ++ [row] })

/-- The SET clause of the UPDATE in UpdateSubtask (subtask.go): title only
when the bound title parameter is non-empty (CASE WHEN $1 != ''), completed
always written, updated_at refreshed. -/
def updateSubtaskSet (req : UpdateSubtaskRequest) (now : Int)
    (s : SubtaskRow) : SubtaskRow :=
  { s with
    title := if req.title != "" then req.title else s.title,
    completed := req.completed,
    updatedAt := now }

/-- UpdateSubtask (subtask.go): no parent-existence check - the UPDATE
matches WHERE id AND todo_id, and zero matched rows (whether the subtask is
missing, belongs to another todo, or the todo itself does not exist) is
ErrNoRows, surfaced as a 404 with "Subtask not found".  Returns the outcome
and the state after the call. -/
def updateSubtask (st : AppState) (todoId subtaskId now : Int)
    (req : UpdateSubtaskRequest) : SubtaskMutResult × AppState :=
  match st.subtasks.find? (fun s => s.id == subtaskId && s.todoId == todoId) with
  | none => (.notFound "Subtask not found", st)
  | some old =>
      (.ok (updateSubtaskSet req now old),
       { st with
         subtasks := st.subtasks.map (fun s =>
           if s.id == subtaskId && s.todoId == todoId then
             updateSubtaskSet req now s
           else s) })

/-- C8 counterexample: with an empty todos table (so the parent task 1 does
not exist), Update Subtask does not surface the parent NotFound - it answers
with the subtask NotFound message, identical to the one for a missing
subtask, because it never checks the parent. -/
theorem claim_C8_counterexample :
    (updateSubtask ⟨[], []⟩ 1 1 0 ⟨"", false⟩).1
      = .notFound "Subtask not found" ∧
    (SubtaskMutResult.notFound "Subtask not found")
      ≠ .notFound "Todo not found" := by
  constructor
  · rfl
  · decide

/-- C8 amended: Create Subtask verifies the parent task first and surfaces
the distinct parent NotFound ("Todo not found") when it is missing, with no
write; Update Subtask performs no parent check - whenever no subtask row
matches the id and parent pair (in particular whenever the parent is
missing) it surfaces the subtask NotFound ("Subtask not found"), with no
write. -/
theorem claim_C8_parent_check
    (st : AppState) (tid nid sid now : Int)
    (creq : CreateSubtaskRequest) (ureq : UpdateSubtaskRequest) :
    (st.todos.any (fun t => t.id == tid) = false →
      createSubtask st tid nid now creq = (.notFound "Todo not found", st)) ∧
    (st.subtasks.find? (fun s => s.id == sid && s.todoId == tid) = none →
      updateSubtask st tid sid now ureq = (.notFound "Subtask not found", st)) := by
  constructor
  · intro h
    simp [createSubtask, h]
  · intro h
    simp [updateSubtask, h]

/-- C8 witness: the amended theorem applied to the empty state, where the
parent task 1 is missing. -/
theorem claim_C8_parent_check_witness :
    createSubtask ⟨[], []⟩ 1 1 0 ⟨"s"⟩ = (.notFound "Todo not found", ⟨[], []⟩) ∧
    updateSubtask ⟨[], []⟩ 1 1 0 ⟨"s", true⟩
      = (.notFound "Subtask not found", ⟨[], []⟩) := by
  have h := claim_C8_parent_check ⟨[], []⟩ 1 1 1 0 ⟨"s"⟩ ⟨"s", true⟩
  exact ⟨h.1 rfl, h.2 rfl⟩

/-- Folding Go append over a non-nil slice keeps it non-nil and appends the
rows. -/
theorem foldl_goAppend_some {α : Type} (rows : List α) (init : List α) :
    rows.foldl goAppend (some init) = some (init ++ rows) := by
  induction rows generalizing init with
  | nil => simp
  | cons a rest ih =>
      simp only [List.foldl_cons, goAppend]
      rw [ih]
      simp

/-- C9 counterexample: on a state where task 1 exists and has zero subtasks,
List Subtasks returns the nil slice - JSON null - not an empty sequence. -/
theorem claim_C9_counterexample :
    getSubtasks ⟨[⟨1, "t", none, "todo", none, "Medium", none, 0, 0⟩], []⟩ 1
      = .ok none ∧
    (SubtasksListResult.ok none) ≠ .ok (some []) := by
  constructor
  · rfl
  · decide

/-- C9 amended: List Tasks does return a non-nil slice (an empty sequence,
never JSON null) for every row set, because its slice is initialized non-nil;
but List Subtasks on an existing task with zero subtasks returns the nil
slice, which serializes to JSON null - the subtask handler declares its
slice nil and never appends. -/
theorem claim_C9_empty_list_shapes
    (rows : List TodoRow) (st : AppState) (tid : Int)
    (hex : st.todos.any (fun t => t.id == tid) = true)
    (hnone : st.subtasks.filter (fun s => s.todoId == tid) = []) :
    (todosResponseSlice rows).isSome = true ∧
    getSubtasks st tid = .ok none := by
  constructor
  · rw [todosResponseSlice, foldl_goAppend_some]
    rfl
  · simp [getSubtasks, hex, hnone, subtasksResponseSlice]

/-- C9 witness: the amended theorem applied to a store with one task and no
subtasks. -/
theorem claim_C9_empty_list_shapes_witness :
    (todosResponseSlice []).isSome = true ∧
    getSubtasks ⟨[⟨2, "t", none, "todo", none, "Medium", none, 0, 0⟩], []⟩ 2
      = .ok none :=
  claim_C9_empty_list_shapes []
    ⟨[⟨2, "t", none, "todo", none, "Medium", none, 0, 0⟩], []⟩ 2 rfl rfl
